import Mathlib

/-!
# Bullfrog "Which Knob Moved" — verification of the audio core

A shallow embedding of `src/app.js` (round generation, validation, voice
scheduling arithmetic, and the lookahead playback scheduler), with theorems
settling the specification claims.

Conventions of the embedding:

* `Math.random()` outcomes are modelled as an explicit stream `r : ℕ → ℚ`
  of draws, consumed at sequentially increasing indices exactly in the
  order the source consumes them.  Validity of the stream
  (`∀ n, 0 ≤ r n ∧ r n < 1`) is an explicit hypothesis where needed.
* JS numbers are modelled as real numbers (for the synthesis / generator
  side) and as rationals (for the purely rational scheduler time
  arithmetic, kept executable so concrete states can be decided).
* Knob ids (the strings `"cutoff"`, `"resonance"`, `"decay"` from `KNOBS`)
  are the three constructors of the inductive type `Knob`; the
  `Unknown knob id` throw in `generateRounds` corresponds to no
  constructor and is therefore unrepresentable.
* DOM access is out of scope (as in the spec); the scheduler model keeps
  the DOM-backed `options disabled` state as the boolean `optionsEnabled`
  and reports UI phase changes / synthesis cycles as an `Effect` list.
-/

namespace Bullfrog

open scoped Classical

/-! ## Knobs (source: `KNOBS`, lines 71-75) -/

/-- The three knob ids of `KNOBS` (`"cutoff"`, `"resonance"`, `"decay"`). -/
inductive Knob : Type
  | cutoff
  | resonance
  | decay
  deriving DecidableEq, Repr

/-- `KNOBS` as the list of its ids (labels are presentation only). -/
def KNOBS : List Knob := [Knob.cutoff, Knob.resonance, Knob.decay]

/-! ## Settings (source: `SETTINGS`, lines 10-69; only the fields the modelled
core reads).  Scheduler-side times are rationals, synth/generator values are
reals. -/

def ROUNDS_PER_GAME : ℕ := 10

def TAKE_SECONDS : ℚ := 2.0
def SILENCE_GAP_SECONDS : ℚ := 0.25
def LOOP_CYCLE_PAUSE_SECONDS : ℚ := 0.35
def SCHEDULING_LEAD_SECONDS : ℚ := 0.05
def TAKE_CLEANUP_EXTRA_SECONDS : ℚ := 0.15

def NOTE_FREQUENCIES_HZ : List ℝ := [98.0, 110.0, 130.81, 146.83, 164.81]

def AMP_ATTACK_SECONDS : ℝ := 0.005
def AMP_RELEASE_SECONDS : ℝ := 0.05

def CUTOFF_BASE_HZ_MIN : ℝ := 250
def CUTOFF_BASE_HZ_MAX : ℝ := 2500
def CUTOFF_CHANGE_MULTIPLIERS : List ℝ := [2.6, 0.38]
def CUTOFF_BASE_LOG_SKEW : ℝ := 1.8

def RESONANCE_BASE_Q_MIN : ℝ := 0.5
def RESONANCE_BASE_Q_MAX : ℝ := 8.0
def RESONANCE_CHANGE_DELTA_Q : ℝ := 2.0
def RESONANCE_Q_MIN : ℝ := 0.5
def RESONANCE_Q_MAX : ℝ := 12.0

def DECAY_BASE_MS_MIN : ℝ := 120
def DECAY_BASE_MS_MAX : ℝ := 1200
def DECAY_CHANGE_MULTIPLIERS : List ℝ := [1.6, 0.6]
def DECAY_MS_MIN : ℝ := 80
def DECAY_MS_MAX : ℝ := 2000

/-- `PARAM_EPS` (line 78). -/
def PARAM_EPS : ℝ := 1e-9

/-! ## Small utilities (lines 85-131) -/

/-- `clamp(x, min, max) = Math.min(max, Math.max(min, x))` (lines 85-87). -/
def clamp (x mn mx : ℝ) : ℝ := Min.min mx (Max.max mn x)

/-- `randFloat(min, max)` (lines 89-91), with the `Math.random()` outcome `u`
made explicit. -/
def randFloat (mn mx u : ℝ) : ℝ := mn + u * (mx - mn)

/-- `randLogFloatSkew(min, max, skewPower)` (lines 100-106), with the
`Math.random()` outcome `u` explicit.  `Number.isFinite(skewPower)` always
holds for a real number, so the `safeSkew` fallback to `1.0` is dropped. -/
noncomputable def randLogFloatSkew (mn mx skewPower u : ℝ) : ℝ :=
  let safeSkew := Max.max 0.05 skewPower
  let t := u ^ safeSkew
  let safeMin := Max.max 1e-6 mn
  let safeMax := Max.max (safeMin * 1.000001) mx
  safeMin * Real.exp (Real.log (safeMax / safeMin) * t)

/-- `pick(arr) = arr[Math.floor(Math.random() * arr.length)]` (lines 108-110).
The draw `u` is explicit; `dflt` stands in for JS `undefined` and is never
produced for an in-range draw `0 ≤ u < 1`. -/
def pick {α : Type} (arr : List α) (dflt : α) (u : ℚ) : α :=
  arr.getD (Nat.floor (u * arr.length)) dflt

/-- The destructuring swap `[arr[i], arr[j]] = [arr[j], arr[i]]` (line 116). -/
def listSwap {α : Type} (l : List α) (i j : ℕ) : List α :=
  match l[i]?, l[j]? with
  | some x, some y => (l.set i y).set j x
  | _, _ => l

/-- The Fisher-Yates loop of `shuffle` (lines 114-117): `fuel` is the loop
index `i` (counting down to `1`), `k` the position in the draw stream. -/
def shuffleAux {α : Type} (r : ℕ → ℚ) : ℕ → List α → ℕ → List α
  | _, l, 0 => l
  | k, l, i + 1 =>
      shuffleAux r (k + 1) (listSwap l (i + 1) (Nat.floor (r k * (i + 1 + 1 : ℕ)))) i

/-- `shuffle(list)` (lines 112-119): Fisher-Yates on a copy, consuming
`list.length - 1` draws starting at stream position `k`. -/
def shuffle {α : Type} (r : ℕ → ℚ) (k : ℕ) (l : List α) : List α :=
  shuffleAux r k l (l.length - 1)

/-- `nearEqual(a, b, eps = PARAM_EPS)` (lines 121-123). -/
def nearEqual (a b : ℝ) (eps : ℝ := PARAM_EPS) : Prop := |a - b| ≤ eps

/-- `msToSec` (lines 129-131). -/
noncomputable def msToSec (ms : ℝ) : ℝ := ms / 1000

/-! ## Parameter sets and rounds (spec §3; source lines 283-316) -/

/-- One take's parameter set (the object literals of lines 283-295). -/
structure ParameterSet : Type where
  cutoffHz : ℝ
  resonanceQ : ℝ
  decayMs : ℝ
  noteFreqHz : ℝ

/-- One round (line 316). `answerOrder` is UI-facing and assigned later by
`startRound`; it is not part of the generated data. -/
structure Round : Type where
  index : ℕ
  changedKnob : Knob
  takeA : ParameterSet
  takeB : ParameterSet

/-- The `changedKnob === "cutoff"` branch (line 298): multiply by one of the
two fixed multipliers, no clamping. -/
noncomputable def perturbCutoff (v : ℝ) (u : ℚ) : ℝ :=
  v * pick CUTOFF_CHANGE_MULTIPLIERS 2.6 u

/-- The `changedKnob === "resonance"` branch (lines 300-305): add or subtract
the fixed delta (sign from the draw `u`: `Math.random() < 0.5 ? -1 : 1`) and
clamp to `[RESONANCE_Q_MIN, RESONANCE_Q_MAX]`. -/
noncomputable def perturbResonance (v : ℝ) (u : ℚ) : ℝ :=
  let sign : ℝ := if u < 0.5 then -1 else 1
  clamp (v + sign * RESONANCE_CHANGE_DELTA_Q) RESONANCE_Q_MIN RESONANCE_Q_MAX

/-- The `changedKnob === "decay"` branch (lines 307-311): multiply by one of
the two fixed multipliers and clamp to `[DECAY_MS_MIN, DECAY_MS_MAX]`. -/
noncomputable def perturbDecay (v : ℝ) (u : ℚ) : ℝ :=
  clamp (v * pick DECAY_CHANGE_MULTIPLIERS 1.6 u) DECAY_MS_MIN DECAY_MS_MAX

/-- One iteration of the round loop (lines 280-316): draw the shared base
parameter set (draws `k..k+3`, in source evaluation order), clone it into
takeA/takeB and perturb only the assigned knob of takeB (draw `k+4`). -/
noncomputable def mkRound (r : ℕ → ℚ) (k : ℕ) (i : ℕ) (changedKnob : Knob) : Round :=
  let base : ParameterSet :=
    { cutoffHz := randLogFloatSkew CUTOFF_BASE_HZ_MIN CUTOFF_BASE_HZ_MAX
        CUTOFF_BASE_LOG_SKEW (r k)
      resonanceQ := randFloat RESONANCE_BASE_Q_MIN RESONANCE_BASE_Q_MAX (r (k + 1))
      decayMs := randFloat DECAY_BASE_MS_MIN DECAY_BASE_MS_MAX (r (k + 2))
      noteFreqHz := pick NOTE_FREQUENCIES_HZ 98.0 (r (k + 3)) }
  let takeA := base
  let takeB : ParameterSet :=
    match changedKnob with
    | Knob.cutoff => { base with cutoffHz := perturbCutoff base.cutoffHz (r (k + 4)) }
    | Knob.resonance => { base with resonanceQ := perturbResonance base.resonanceQ (r (k + 4)) }
    | Knob.decay => { base with decayMs := perturbDecay base.decayMs (r (k + 4)) }
  { index := i, changedKnob := changedKnob, takeA := takeA, takeB := takeB }

/-- The knob bag before padding (lines 273-276): each knob id pushed 3 times,
in `KNOBS` order. -/
def knobBag : List Knob := KNOBS.flatMap (fun k => List.replicate 3 k)

/-- Lines 273-278: the padded, shuffled changed-knob assignment.  Draw `k` is
the padding `pick(KNOBS)` (line 277); draws `k+1 .. k+9` drive the shuffle. -/
noncomputable def changedKnobList (r : ℕ → ℚ) (k : ℕ) : List Knob :=
  shuffle r (k + 1) (knobBag ++ [pick KNOBS Knob.cutoff (r k)])

/-- `generateRounds()` (lines 269-320), starting at stream position `k`.
The bag construction and shuffle consume draws `k..k+9`; round `i` consumes
draws `k+10+5i .. k+10+5i+4` (every perturbation branch consumes exactly one
draw, so consumption is five per round in every case). -/
noncomputable def generateRounds (r : ℕ → ℚ) (k : ℕ) : List Round :=
  let changedKnobs := changedKnobList r k
  (List.range ROUNDS_PER_GAME).map
    (fun i => mkRound r (k + 10 + 5 * i) i (changedKnobs.getD i Knob.cutoff))

/-! ## Validation (source: `validateRounds`, lines 322-353) -/

/-- Structured counterpart of the error strings pushed by `validateRounds`
(message formatting aside, one constructor per `errors.push` site; the
`Rounds is not an array` check is unrepresentable for a `List`). -/
inductive Violation : Type
  | wrongLength
  | noteFreqDiffers (index : ℕ)
  | wrongDiffCount (index : ℕ) (found : ℕ)
  | knobMismatch (index : ℕ)
  | underRepresented (k : Knob)
  deriving DecidableEq, Repr

/-- The `diffs` list of one validation round (lines 334-339): knobs pushed in
cutoff, resonance, decay order when the takes are not `nearEqual`. -/
noncomputable def roundDiffs (rd : Round) : List Knob :=
  (if nearEqual rd.takeA.cutoffHz rd.takeB.cutoffHz then [] else [Knob.cutoff]) ++
  (if nearEqual rd.takeA.resonanceQ rd.takeB.resonanceQ then [] else [Knob.resonance]) ++
  (if nearEqual rd.takeA.decayMs rd.takeB.decayMs then [] else [Knob.decay])

/-- The per-round error pushes of the validation loop (lines 336-345). -/
noncomputable def roundErrors (rd : Round) : List Violation :=
  (if nearEqual rd.takeA.noteFreqHz rd.takeB.noteFreqHz then []
   else [Violation.noteFreqDiffers rd.index]) ++
  (if (roundDiffs rd).length = 1 then
    (if (roundDiffs rd).getD 0 Knob.cutoff = rd.changedKnob then []
     else [Violation.knobMismatch rd.index])
   else [Violation.wrongDiffCount rd.index (roundDiffs rd).length])

/-- The `counts` table (lines 327-330): occurrences of each knob id among the
rounds' `changedKnob` fields. -/
def knobCount (rounds : List Round) (k : Knob) : ℕ :=
  (rounds.map (fun rd => rd.changedKnob)).count k

/-- Result record of `validateRounds` (line 352). -/
structure Validation : Type where
  ok : Bool
  errors : List Violation
  counts : Knob → ℕ

/-- `validateRounds(rounds)` (lines 322-353): the length check, the per-round
checks in iteration order, then the per-knob `< 3` count checks. -/
noncomputable def validateRounds (rounds : List Round) : Validation :=
  let errors :=
    (if rounds.length = ROUNDS_PER_GAME then [] else [Violation.wrongLength]) ++
    rounds.flatMap roundErrors ++
    (KNOBS.filter (fun k => knobCount rounds k < 3)).map Violation.underRepresented
  { ok := errors.isEmpty, errors := errors, counts := knobCount rounds }

/-- `buildNewRounds` retry loop body (lines 522-534): `fuel` counts the
remaining attempts, `attempt` the 0-based attempt index.  Each
`generateRounds()` call consumes exactly 60 draws, so attempt `a` reads the
stream at offset `60 * a`.  `none` models the final
`throw new Error("Failed to generate valid rounds.")`. -/
noncomputable def buildNewRoundsAux (r : ℕ → ℚ) : ℕ → ℕ → Option (List Round)
  | 0, _ => none
  | fuel + 1, attempt =>
      let candidate := generateRounds r (60 * attempt)
      if (validateRounds candidate).ok then some candidate
      else buildNewRoundsAux r fuel (attempt + 1)

/-- `buildNewRounds()` (lines 522-534): up to 50 attempts, fatal failure
(`none`) if none validates. -/
noncomputable def buildNewRounds (r : ℕ → ℚ) : Option (List Round) :=
  buildNewRoundsAux r 50 0

/-! ## Voice scheduling arithmetic (source: `scheduleVoice`, lines 167-232)

Only the pure scheduling arithmetic of the synthesis graph is modelled; node
construction/wiring is resource plumbing with no numeric content. -/

/-- The timing data `scheduleVoice` computes for one voice (lines 192-214). -/
structure VoiceSchedule : Type where
  baseCutoff : ℝ
  envPeak : ℝ
  naturalEndTime : ℝ
  stopAt : ℝ

/-- The scheduling arithmetic of `scheduleVoice(ctx, destination, params,
noteStartTime, hardStopTime)` (lines 167-232): amp envelope length
`attack + decay + release`, filter envelope base/peak clamps, and the
oscillator stop time
`max(noteStartTime + 0.01, min(naturalEndTime, hardStopTime))` (line 214). -/
noncomputable def scheduleVoice (params : ParameterSet)
    (noteStartTime hardStopTime : ℝ) : VoiceSchedule :=
  let attack := AMP_ATTACK_SECONDS
  let release := AMP_RELEASE_SECONDS
  let decay := msToSec params.decayMs
  let baseCutoff := clamp params.cutoffHz 20 20000
  let envPeak := clamp (baseCutoff + 500) 20 20000
  let naturalEndTime := noteStartTime + attack + decay + release
  { baseCutoff := baseCutoff
    envPeak := envPeak
    naturalEndTime := naturalEndTime
    stopAt := Max.max (noteStartTime + 0.01) (Min.min naturalEndTime hardStopTime) }

/-! ## Playback scheduler model (source: lines 234-266, 370-434, 454-478,
536-674)

The scheduler's time arithmetic never depends on synth parameter values, so
this side of the embedding works over `ℚ` and stays executable.  The audio
clock reading `ctx.currentTime` is the explicit argument `now` of each
operation; DOM/audio side effects observable to the UI collaborator are
reported as an `Effect` list. -/

/-- The four UI phases (lines 80-83). -/
inductive Phase : Type
  | a
  | gap
  | b
  | answer
  deriving DecidableEq, Repr

/-- What a pending `scheduleUi` timeout does when it fires: one of the four
`setPhase` thunks, or the self-scheduled `scheduleNextLoopCycle` continuation
(lines 622-630). -/
inductive TKind : Type
  | phase (p : Phase)
  | loopCont
  deriving DecidableEq, Repr

/-- One pending `scheduleUi` timeout (lines 424-430): the session token
captured at schedule time, the requested delay in seconds, and the thunk. -/
structure PTimer : Type where
  token : ℕ
  delaySeconds : ℚ
  kind : TKind
  deriving DecidableEq, Repr

/-- Observable actions of the scheduler: a round-playback cycle handed to the
audio graph (`playRound`, line 620), a `setPhase` UI notification, and the
mute fade of `stopRoundAudio`. -/
inductive Effect : Type
  | playCycle (at' : ℚ)
  | phaseSet (p : Phase)
  | muteBus
  deriving DecidableEq, Repr

/-- One recorded answer (line 649). -/
structure AnswerResult : Type where
  correctKnob : Knob
  chosenKnob : Knob
  isCorrect : Bool
  deriving DecidableEq, Repr

/-- The scheduling-relevant fields of the global `state` object (lines
371-384) plus `optionsEnabled` for the DOM-backed `anyEnabled` guard of
`handleAnswer` (lines 636-638).  Round data is abstracted to the per-round
`changedKnob` list (the only round field the scheduler state machine
reads). -/
structure SchedState : Type where
  playbackToken : ℕ
  answered : Bool
  hasRoundOutput : Bool
  optionsEnabled : Bool
  moveNextTimer : Bool
  phaseTimers : List PTimer
  loopNextAt : ℚ
  currentIndex : ℕ
  score : ℕ
  results : List AnswerResult
  roundKnobs : List Knob
  deriving DecidableEq, Repr

/-- The initial `state` literal (lines 371-384); no options rendered yet. -/
def initState : SchedState :=
  { playbackToken := 0
    answered := false
    hasRoundOutput := false
    optionsEnabled := false
    moveNextTimer := false
    phaseTimers := []
    loopNextAt := 0
    currentIndex := 0
    score := 0
    results := []
    roundKnobs := [] }

/-- The boundary timestamps `playRound` returns (lines 260-266):
`playTake` (line 257) returns `when + TAKE_SECONDS` for each take. -/
structure RoundTimes : Type where
  aStart : ℚ
  aEnd : ℚ
  bStart : ℚ
  bEnd : ℚ
  endAt : ℚ
  deriving DecidableEq, Repr

/-- The timestamp arithmetic of `playRound(engine, round, when, destination)`
(lines 260-266). -/
def playRoundTimes (when : ℚ) : RoundTimes :=
  let aStart := when
  let aEnd := aStart + TAKE_SECONDS
  let bStart := aEnd + SILENCE_GAP_SECONDS
  let bEnd := bStart + TAKE_SECONDS
  { aStart := aStart, aEnd := aEnd, bStart := bStart, bEnd := bEnd, endAt := bEnd }

/-- Lines 617-618 of `scheduleNextLoopCycle`:
`let at = state.loopNextAt; if (at < now + 0.005) at = now + 0.005;`. -/
def cycleStart (loopNextAt now : ℚ) : ℚ :=
  if loopNextAt < now + 0.005 then now + 0.005 else loopNextAt

/-- `clearPhaseTimers()` (lines 419-422). -/
def clearPhaseTimers (s : SchedState) : SchedState :=
  { s with phaseTimers := [] }

/-- `clearTimers()` (lines 411-417). -/
def clearTimers (s : SchedState) : SchedState :=
  { s with moveNextTimer := false, phaseTimers := [] }

/-- `scheduleUi(token, delaySeconds, fn)` (lines 424-430): push a timeout
that captured `token` at schedule time. -/
def scheduleUi (token : ℕ) (delaySeconds : ℚ) (kind : TKind) (s : SchedState) :
    SchedState :=
  { s with phaseTimers := s.phaseTimers ++ [{ token := token, delaySeconds := delaySeconds, kind := kind }] }

/-- `stopRoundAudio()` (lines 454-478): drop the round bus (if any) behind a
short mute fade. -/
def stopRoundAudio (s : SchedState) : SchedState × List Effect :=
  if s.hasRoundOutput then
    ({ s with hasRoundOutput := false }, [Effect.muteBus])
  else (s, [])

/-- `scheduleNextLoopCycle(token)` (lines 608-631): no-op unless the captured
token is current, the round unanswered and the round bus alive; otherwise
schedule one `playRound` cycle at `cycleStart`, queue the four phase
notifications, advance the cursor past the cycle plus the pause, and
self-schedule the next continuation `SCHEDULING_LEAD_SECONDS` before it. -/
def scheduleNextLoopCycle (token : ℕ) (now : ℚ) (s : SchedState) :
    SchedState × List Effect :=
  if token ≠ s.playbackToken then (s, [])
  else if s.answered then (s, [])
  else if ¬ s.hasRoundOutput then (s, [])
  else
    let at' := cycleStart s.loopNextAt now
    let times := playRoundTimes at'
    let s1 := scheduleUi token (times.aStart - now) (TKind.phase Phase.a) s
    let s2 := scheduleUi token (times.aEnd - now) (TKind.phase Phase.gap) s1
    let s3 := scheduleUi token (times.bStart - now) (TKind.phase Phase.b) s2
    let s4 := scheduleUi token (times.endAt - now) (TKind.phase Phase.gap) s3
    let s5 := { s4 with loopNextAt := times.endAt + LOOP_CYCLE_PAUSE_SECONDS }
    let s6 := scheduleUi token (s5.loopNextAt - SCHEDULING_LEAD_SECONDS - now)
      TKind.loopCont s5
    (s6, [Effect.playCycle at'])

/-- A pending `scheduleUi` timeout firing (lines 425-428): the callback is a
no-op when the captured token is stale; otherwise it runs its thunk
(`setPhase` or the loop continuation). -/
def fireTimer (t : PTimer) (now : ℚ) (s : SchedState) : SchedState × List Effect :=
  if t.token ≠ s.playbackToken then (s, [])
  else
    match t.kind with
    | TKind.phase p => (s, [Effect.phaseSet p])
    | TKind.loopCont => scheduleNextLoopCycle t.token now s

/-- `handleAnswer(knobId)` (lines 633-674): ignored when already answered or
no option button is enabled; otherwise set the answer flag, clear the pending
phase timers, mute the round bus, record the result, disable the options and
arm the advance timer. -/
def handleAnswer (knobId : Knob) (s : SchedState) : SchedState × List Effect :=
  if s.answered then (s, [])
  else if s.optionsEnabled = false then (s, [])
  else
    let s1 := clearPhaseTimers { s with answered := true }
    let p := stopRoundAudio s1
    let correct := s.roundKnobs.getD s.currentIndex Knob.cutoff
    let isCorrect := knobId = correct
    let s2 :=
      { p.1 with
        results := p.1.results ++
          [{ correctKnob := correct, chosenKnob := knobId, isCorrect := decide isCorrect }]
        score := p.1.score + (if isCorrect then 1 else 0)
        optionsEnabled := false
        moveNextTimer := true }
    (s2, p.2 ++ [Effect.phaseSet Phase.answer])

/-- `startRound(index)` (lines 555-606): clear timers, mute the old bus, bump
the session token (capturing the new one), reset the answer flag, enable the
options, create the round bus, set the cursor a scheduling lead ahead of the
clock and kick the loop. -/
def startRound (index : ℕ) (now : ℚ) (s : SchedState) : SchedState × List Effect :=
  let s1 := clearTimers s
  let p := stopRoundAudio s1
  let s2 :=
    { p.1 with
      playbackToken := p.1.playbackToken + 1
      currentIndex := index
      answered := false
      optionsEnabled := true }
  let startAt := now + SCHEDULING_LEAD_SECONDS
  let s3 := { s2 with hasRoundOutput := true, loopNextAt := startAt }
  let q := scheduleNextLoopCycle s2.playbackToken now s3
  (q.1, p.2 ++ [Effect.phaseSet Phase.gap] ++ q.2)

/-- `finishGame()` (lines 676-694). -/
def finishGame (s : SchedState) : SchedState × List Effect :=
  let s1 := clearTimers s
  let p := stopRoundAudio s1
  ({ p.1 with optionsEnabled := false }, p.2 ++ [Effect.phaseSet Phase.answer])

/-- `startNewGame()` (lines 536-553) with the freshly built batch abstracted
to its `changedKnob` list `ks`. -/
def startNewGame (ks : List Knob) (now : ℚ) (s : SchedState) :
    SchedState × List Effect :=
  let s1 := clearTimers s
  let p := stopRoundAudio s1
  let s2 :=
    { p.1 with
      roundKnobs := ks
      currentIndex := 0
      score := 0
      answered := false
      results := [] }
  let q := startRound 0 now s2
  (q.1, p.2 ++ q.2)

/-- The event-loop step relation: one fired timeout, one answer click, one
round start (initial, advance timer, or restart), one game finish, or one new
game.  `now` is the audio clock reading at the moment the callback runs. -/
inductive Step : SchedState → SchedState → Prop
  | fire (s : SchedState) (t : PTimer) (now : ℚ) (h : t ∈ s.phaseTimers) :
      Step s (fireTimer t now s).1
  | answer (s : SchedState) (k : Knob) : Step s (handleAnswer k s).1
  | advance (s : SchedState) (i : ℕ) (now : ℚ) : Step s (startRound i now s).1
  | finish (s : SchedState) : Step s (finishGame s).1
  | newGame (s : SchedState) (ks : List Knob) (now : ℚ) :
      Step s (startNewGame ks now s).1

/-- States the event loop can reach from the initial `state` literal. -/
def Reachable (s : SchedState) : Prop :=
  Relation.ReflTransGen Step initState s

/-! ## A concrete draw stream on which the pipeline provably succeeds

`halfStream` answers `1/2` to every `Math.random()` call.  The shuffle,
pick and perturbation draws are all evaluated below, giving one concrete
batch that passes validation — the witness input for the delivered-batch
theorems. -/

def halfStream : ℕ → ℚ := fun _ => 1 / 2

/-- The changed-knob list `generateRounds` computes from `halfStream`. -/
def halfKnobs : List Knob :=
  [Knob.cutoff, Knob.resonance, Knob.cutoff, Knob.decay, Knob.cutoff, Knob.decay, Knob.resonance, Knob.decay, Knob.resonance, Knob.resonance]


/-- Concrete scheduler states for instantiating the scheduler theorems:
`wsState1` is the state after the first `startRound`, `wsState2` the state
after an accepted answer in it, `wsLooping` a minimal state in the `LOOPING`
configuration. -/
def wsState1 : SchedState := (startRound 0 0 initState).1

def wsState2 : SchedState := (handleAnswer Knob.cutoff wsState1).1

def wsTimer : PTimer := { token := 0, delaySeconds := 0, kind := TKind.phase Phase.a }

def wsLooping : SchedState := { initState with hasRoundOutput := true }

/-- The first round `generateRounds` produces from `halfStream`. -/
noncomputable def sampleRound : Round := mkRound halfStream 10 0 Knob.cutoff

/-! ## List lemmas: the Fisher-Yates shuffle permutes its input -/

theorem count_set_add {α : Type} [DecidableEq α] :
    ∀ (l : List α) (i : ℕ) (x a b : α), l[i]? = some x →
      (l.set i a).count b + (if x = b then 1 else 0)
        = l.count b + (if a = b then 1 else 0)
  | [], i, x, a, b, h => by simp at h
  | hd :: tl, 0, x, a, b, h => by
      simp only [List.getElem?_cons_zero, Option.some.injEq] at h
      subst h
      simp only [List.set_cons_zero, List.count_cons, beq_iff_eq]
      by_cases hhb : hd = b <;> by_cases hab : a = b <;> simp [hhb, hab]
  | hd :: tl, i + 1, x, a, b, h => by
      simp only [List.getElem?_cons_succ] at h
      have ih := count_set_add tl i x a b h
      simp only [List.set_cons_succ, List.count_cons, beq_iff_eq]
      by_cases hxb : x = b <;> by_cases hab : a = b <;>
        by_cases hhb : hd = b <;> simp [hxb, hab, hhb] at ih ⊢ <;> omega

theorem listSwap_count {α : Type} [DecidableEq α] (l : List α) (i j : ℕ) (b : α) :
    (listSwap l i j).count b = l.count b := by
  unfold listSwap
  rcases hi : l[i]? with _ | x
  · simp
  · rcases hj : l[j]? with _ | y
    · simp
    · simp only []
      have hjlen : j < l.length := (List.getElem?_eq_some_iff.mp hj).1
      have hj' : (l.set i y)[j]? = some y := by
        by_cases hij : i = j
        · subst hij
          exact List.getElem?_set_self (by simpa using hjlen)
        · rw [List.getElem?_set_ne hij]
          exact hj
      have h1 := count_set_add l i x y b hi
      have h2 := count_set_add (l.set i y) j y x b hj'
      omega

theorem listSwap_length {α : Type} (l : List α) (i j : ℕ) :
    (listSwap l i j).length = l.length := by
  unfold listSwap
  rcases hi : l[i]? with _ | x
  · rfl
  · rcases hj : l[j]? with _ | y
    · rfl
    · simp

theorem shuffleAux_count {α : Type} [DecidableEq α] (r : ℕ → ℚ) :
    ∀ (fuel k : ℕ) (l : List α) (b : α), (shuffleAux r k l fuel).count b = l.count b
  | 0, _, _, _ => rfl
  | i + 1, k, l, b => by
      show (shuffleAux r (k + 1) (listSwap l (i + 1) (Nat.floor (r k * (i + 1 + 1 : ℕ)))) i).count b
        = l.count b
      rw [shuffleAux_count r i (k + 1) _ b, listSwap_count]

theorem shuffleAux_length {α : Type} (r : ℕ → ℚ) :
    ∀ (fuel k : ℕ) (l : List α), (shuffleAux r k l fuel).length = l.length
  | 0, _, _ => rfl
  | i + 1, k, l => by
      show (shuffleAux r (k + 1) (listSwap l (i + 1) (Nat.floor (r k * (i + 1 + 1 : ℕ)))) i).length
        = l.length
      rw [shuffleAux_length r i (k + 1) _, listSwap_length]

theorem shuffle_count {α : Type} [DecidableEq α] (r : ℕ → ℚ) (k : ℕ) (l : List α) (b : α) :
    (shuffle r k l).count b = l.count b :=
  shuffleAux_count r (l.length - 1) k l b

theorem shuffle_length {α : Type} (r : ℕ → ℚ) (k : ℕ) (l : List α) :
    (shuffle r k l).length = l.length :=
  shuffleAux_length r (l.length - 1) k l

theorem map_getD_range {α : Type} (d : α) :
    ∀ l : List α, (List.range l.length).map (fun i => l.getD i d) = l
  | [] => rfl
  | hd :: tl => by
      rw [List.length_cons, List.range_succ_eq_map, List.map_cons, List.map_map]
      have : ((fun i => (hd :: tl).getD i d) ∘ Nat.succ) = fun i => tl.getD i d := by
        funext i
        simp
      rw [this, map_getD_range d tl]
      simp

theorem count_knobs_eq_length :
    ∀ l : List Knob,
      l.count Knob.cutoff + l.count Knob.resonance + l.count Knob.decay = l.length
  | [] => rfl
  | hd :: tl => by
      have ih := count_knobs_eq_length tl
      cases hd <;> simp [List.count_cons] <;> omega

/-! ## Facts about the changed-knob assignment -/

theorem changedKnobList_length (r : ℕ → ℚ) (k : ℕ) :
    (changedKnobList r k).length = ROUNDS_PER_GAME := by
  unfold changedKnobList
  rw [shuffle_length]
  rfl

theorem changedKnobList_count (r : ℕ → ℚ) (k : ℕ) (b : Knob) :
    (changedKnobList r k).count b
      = knobBag.count b + (if pick KNOBS Knob.cutoff (r k) = b then 1 else 0) := by
  unfold changedKnobList
  rw [shuffle_count, List.count_append]
  simp [List.count_cons, beq_iff_eq]

theorem generateRounds_map_changedKnob (r : ℕ → ℚ) (k : ℕ) :
    (generateRounds r k).map (fun rd => rd.changedKnob) = changedKnobList r k := by
  unfold generateRounds
  rw [List.map_map]
  have h1 : ((fun rd => rd.changedKnob) ∘
      fun i => mkRound r (k + 10 + 5 * i) i ((changedKnobList r k).getD i Knob.cutoff))
      = fun i => (changedKnobList r k).getD i Knob.cutoff := by
    funext i
    simp only [Function.comp_apply, mkRound]
  rw [h1]
  have h2 := map_getD_range Knob.cutoff (changedKnobList r k)
  rw [changedKnobList_length] at h2
  exact h2

/-- Claim C2: for every outcome of the random draws, the batch produced by
`generateRounds` assigns each of the three knob ids at least
`⌊N/3⌋ = 3` times, the three occurrence counts sum to `N = 10`, and the
assignment is literally the shuffle of the bag holding each knob id
`⌊N/3⌋` times padded with `N mod 3 = 1` uniformly drawn id. -/
theorem generateRounds_balanced (r : ℕ → ℚ) (k : ℕ) :
    (generateRounds r k).map (fun rd => rd.changedKnob)
        = shuffle r (k + 1) (knobBag ++ [pick KNOBS Knob.cutoff (r k)]) ∧
    (∀ b : Knob, knobBag.count b = ROUNDS_PER_GAME / 3) ∧
    [pick KNOBS Knob.cutoff (r k)].length = ROUNDS_PER_GAME % 3 ∧
    (∀ b : Knob,
      ROUNDS_PER_GAME / 3 ≤ ((generateRounds r k).map (fun rd => rd.changedKnob)).count b) ∧
    ((generateRounds r k).map (fun rd => rd.changedKnob)).count Knob.cutoff
      + ((generateRounds r k).map (fun rd => rd.changedKnob)).count Knob.resonance
      + ((generateRounds r k).map (fun rd => rd.changedKnob)).count Knob.decay
      = ROUNDS_PER_GAME := by
  refine ⟨generateRounds_map_changedKnob r k, ?_, rfl, ?_, ?_⟩
  · intro b
    cases b <;> decide
  · intro b
    rw [generateRounds_map_changedKnob, changedKnobList_count]
    have hbag : knobBag.count b = 3 := by cases b <;> decide
    have hrpg : ROUNDS_PER_GAME / 3 = 3 := rfl
    rw [hbag, hrpg]
    omega
  · rw [generateRounds_map_changedKnob, count_knobs_eq_length, changedKnobList_length]

/-! ## The retry loop of `buildNewRounds` -/

theorem buildNewRoundsAux_some (r : ℕ → ℚ) :
    ∀ (fuel attempt : ℕ) (b : List Round), buildNewRoundsAux r fuel attempt = some b →
      (validateRounds b).ok = true ∧
      ∃ a : ℕ, attempt ≤ a ∧ a < attempt + fuel ∧ b = generateRounds r (60 * a)
  | 0, attempt, b, h => by simp [buildNewRoundsAux] at h
  | fuel + 1, attempt, b, h => by
      rw [buildNewRoundsAux] at h
      by_cases hok : (validateRounds (generateRounds r (60 * attempt))).ok
      · simp only [hok, if_true, Option.some.injEq] at h
        subst h
        exact ⟨hok, attempt, le_refl _, by omega, rfl⟩
      · simp only [hok, if_false] at h
        obtain ⟨hv, a, ha1, ha2, ha3⟩ := buildNewRoundsAux_some r fuel (attempt + 1) b h
        exact ⟨hv, a, by omega, by omega, ha3⟩

theorem buildNewRoundsAux_none (r : ℕ → ℚ) :
    ∀ (fuel attempt : ℕ),
      (∀ a : ℕ, attempt ≤ a → a < attempt + fuel →
        (validateRounds (generateRounds r (60 * a))).ok = false) →
      buildNewRoundsAux r fuel attempt = none
  | 0, attempt, _ => rfl
  | fuel + 1, attempt, h => by
      rw [buildNewRoundsAux]
      have hfail := h attempt (le_refl _) (by omega)
      simp only [hfail, Bool.false_eq_true, if_false]
      exact buildNewRoundsAux_none r fuel (attempt + 1)
        (fun a ha1 ha2 => h a (by omega) (by omega))

/-- Claim C9: the batch builder regenerates on validation failure for up to
exactly 50 attempts; a delivered batch is one of these candidates and passed
validation in full, and if no candidate within the bound validates the
builder fails fatally (`none`, the thrown error) instead of returning an
invalid batch. -/
theorem buildNewRounds_retry_bound (r : ℕ → ℚ) :
    (∀ b : List Round, buildNewRounds r = some b →
      (validateRounds b).ok = true ∧
      ∃ a : ℕ, a < 50 ∧ b = generateRounds r (60 * a)) ∧
    ((∀ a : ℕ, a < 50 → (validateRounds (generateRounds r (60 * a))).ok = false) →
      buildNewRounds r = none) := by
  constructor
  · intro b h
    obtain ⟨hv, a, _, ha2, ha3⟩ := buildNewRoundsAux_some r 50 0 b h
    exact ⟨hv, a, by omega, ha3⟩
  · intro h
    exact buildNewRoundsAux_none r 50 0 (fun a _ ha => h a (by omega))

/-! ## Validator semantics -/

theorem validateRounds_ok_roundErrors {rds : List Round}
    (h : (validateRounds rds).ok = true) : ∀ rd ∈ rds, roundErrors rd = [] := by
  intro rd hrd
  unfold validateRounds at h
  simp only [List.isEmpty_iff, List.append_eq_nil] at h
  obtain ⟨⟨_, hflat⟩, _⟩ := h
  by_contra hne
  obtain ⟨e, he⟩ := List.exists_mem_of_ne_nil _ hne
  have : e ∈ rds.flatMap roundErrors := List.mem_flatMap.mpr ⟨rd, hrd, he⟩
  rw [hflat] at this
  exact (List.not_mem_nil e) this

theorem roundErrors_nil {rd : Round} (h : roundErrors rd = []) :
    nearEqual rd.takeA.noteFreqHz rd.takeB.noteFreqHz ∧
    (roundDiffs rd).length = 1 ∧
    (roundDiffs rd).getD 0 Knob.cutoff = rd.changedKnob := by
  unfold roundErrors at h
  by_cases h1 : nearEqual rd.takeA.noteFreqHz rd.takeB.noteFreqHz
  · by_cases h2 : (roundDiffs rd).length = 1
    · by_cases h3 : (roundDiffs rd).getD 0 Knob.cutoff = rd.changedKnob
      · exact ⟨h1, h2, h3⟩
      · refine ⟨h1, h2, ?_⟩
        simp [h1, h2] at h
        simp [h2]
        exact h
    · simp [h1, h2] at h
  · simp [h1] at h

/-- Exactly-one-difference, in the form the validator's `diffs` list
enforces: each parameter differs beyond `ε` precisely when it is the round's
`changedKnob`. -/
theorem roundDiffs_spec {rd : Round} (hlen : (roundDiffs rd).length = 1)
    (hhead : (roundDiffs rd).getD 0 Knob.cutoff = rd.changedKnob) :
    (¬ nearEqual rd.takeA.cutoffHz rd.takeB.cutoffHz ↔ rd.changedKnob = Knob.cutoff) ∧
    (¬ nearEqual rd.takeA.resonanceQ rd.takeB.resonanceQ ↔ rd.changedKnob = Knob.resonance) ∧
    (¬ nearEqual rd.takeA.decayMs rd.takeB.decayMs ↔ rd.changedKnob = Knob.decay) := by
  unfold roundDiffs at hlen hhead
  by_cases hc : nearEqual rd.takeA.cutoffHz rd.takeB.cutoffHz <;>
    by_cases hr : nearEqual rd.takeA.resonanceQ rd.takeB.resonanceQ <;>
      by_cases hd : nearEqual rd.takeA.decayMs rd.takeB.decayMs <;>
        simp [hc, hr, hd] at hlen hhead ⊢ <;>
          rw [← hhead] <;> simp [hc, hr, hd]

/-! ## Per-round structure of the generator -/

theorem mkRound_changedKnob (r : ℕ → ℚ) (k i : ℕ) (c : Knob) :
    (mkRound r k i c).changedKnob = c := rfl

theorem mkRound_noteFreq_eq (r : ℕ → ℚ) (k i : ℕ) (c : Knob) :
    (mkRound r k i c).takeA.noteFreqHz = (mkRound r k i c).takeB.noteFreqHz := by
  cases c <;> rfl

theorem mem_generateRounds {r : ℕ → ℚ} {k : ℕ} {rd : Round} (h : rd ∈ generateRounds r k) :
    ∃ i : ℕ, i < ROUNDS_PER_GAME ∧
      rd = mkRound r (k + 10 + 5 * i) i ((changedKnobList r k).getD i Knob.cutoff) := by
  unfold generateRounds at h
  simp only [List.mem_map, List.mem_range] at h
  obtain ⟨i, hi, hrd⟩ := h
  exact ⟨i, hi, hrd.symm⟩

/-- Claim C1: every round of a batch delivered by the generator pipeline
(`buildNewRounds`, i.e. `generateRounds` + `validateRounds` + retry) has
`takeA.noteFreqHz` exactly equal to `takeB.noteFreqHz` (both copy one base
draw), and each of `cutoffHz`, `resonanceQ`, `decayMs` differs between the
takes by more than `ε = 1e-9` precisely when it is the round's
`changedKnob` — so exactly one field differs and its name matches. -/
theorem delivered_rounds_single_difference (r : ℕ → ℚ) :
    ∀ b : List Round, buildNewRounds r = some b → ∀ rd ∈ b,
      rd.takeA.noteFreqHz = rd.takeB.noteFreqHz ∧
      (¬ nearEqual rd.takeA.cutoffHz rd.takeB.cutoffHz ↔ rd.changedKnob = Knob.cutoff) ∧
      (¬ nearEqual rd.takeA.resonanceQ rd.takeB.resonanceQ ↔ rd.changedKnob = Knob.resonance) ∧
      (¬ nearEqual rd.takeA.decayMs rd.takeB.decayMs ↔ rd.changedKnob = Knob.decay) := by
  intro b hb rd hrd
  obtain ⟨hok, a, _, _, hgen⟩ := (buildNewRoundsAux_some r 50 0 b hb)
  have herr := validateRounds_ok_roundErrors hok rd hrd
  obtain ⟨_, hlen, hhead⟩ := roundErrors_nil herr
  refine ⟨?_, roundDiffs_spec hlen hhead⟩
  subst hgen
  obtain ⟨i, _, hrd'⟩ := mem_generateRounds hrd
  rw [hrd']
  exact mkRound_noteFreq_eq r _ i _

/-! ## ParameterSpace bounds -/

theorem clamp_bounds {mn mx : ℝ} (x : ℝ) (h : mn ≤ mx) :
    mn ≤ clamp x mn mx ∧ clamp x mn mx ≤ mx := by
  unfold clamp
  constructor
  · exact le_min h (le_max_left mn x)
  · exact min_le_left mx _

theorem randFloat_bounds (mn mx : ℝ) (u : ℚ) (h0 : 0 ≤ u) (h1 : u < 1)
    (hmn : mn ≤ mx) : mn ≤ randFloat mn mx u ∧ randFloat mn mx u ≤ mx := by
  unfold randFloat
  have hu0 : (0 : ℝ) ≤ (u : ℚ) := by exact_mod_cast h0
  have hu1 : ((u : ℚ) : ℝ) ≤ 1 := by exact_mod_cast le_of_lt h1
  constructor
  · nlinarith
  · nlinarith

theorem randLogFloatSkew_cutoff (u : ℚ) :
    randLogFloatSkew CUTOFF_BASE_HZ_MIN CUTOFF_BASE_HZ_MAX CUTOFF_BASE_LOG_SKEW u
      = 250 * Real.exp (Real.log 10 * ((u : ℝ) ^ (1.8 : ℝ))) := by
  have h1 : Max.max (0.05 : ℝ) 1.8 = 1.8 := max_eq_right (by norm_num)
  have h2 : Max.max (1e-6 : ℝ) 250 = 250 := max_eq_right (by norm_num)
  have h3 : Max.max ((250 : ℝ) * 1.000001) 2500 = 2500 := max_eq_right (by norm_num)
  simp only [randLogFloatSkew, CUTOFF_BASE_HZ_MIN, CUTOFF_BASE_HZ_MAX,
    CUTOFF_BASE_LOG_SKEW, h1, h2, h3]
  norm_num

theorem cutoff_base_pos (u : ℚ) :
    0 < randLogFloatSkew CUTOFF_BASE_HZ_MIN CUTOFF_BASE_HZ_MAX CUTOFF_BASE_LOG_SKEW u := by
  rw [randLogFloatSkew_cutoff]
  positivity

theorem cutoff_base_lb (u : ℚ) (h0 : 0 ≤ u) :
    250 ≤ randLogFloatSkew CUTOFF_BASE_HZ_MIN CUTOFF_BASE_HZ_MAX CUTOFF_BASE_LOG_SKEW u := by
  rw [randLogFloatSkew_cutoff]
  have hu0 : (0 : ℝ) ≤ ((u : ℚ) : ℝ) := by exact_mod_cast h0
  have hexp : (1 : ℝ) ≤ Real.exp (Real.log 10 * ((u : ℝ) ^ (1.8 : ℝ))) := by
    rw [show (1 : ℝ) = Real.exp 0 from (Real.exp_zero).symm]
    apply Real.exp_le_exp.mpr
    exact mul_nonneg (Real.log_nonneg (by norm_num)) (Real.rpow_nonneg hu0 _)
  nlinarith

theorem cutoff_base_ub (u : ℚ) (h0 : 0 ≤ u) (h1 : u < 1) :
    randLogFloatSkew CUTOFF_BASE_HZ_MIN CUTOFF_BASE_HZ_MAX CUTOFF_BASE_LOG_SKEW u
      ≤ 2500 := by
  rw [randLogFloatSkew_cutoff]
  have hu0 : (0 : ℝ) ≤ ((u : ℚ) : ℝ) := by exact_mod_cast h0
  have hu1 : ((u : ℚ) : ℝ) ≤ 1 := by exact_mod_cast le_of_lt h1
  have ht : ((u : ℝ) ^ (1.8 : ℝ)) ≤ 1 := Real.rpow_le_one hu0 hu1 (by norm_num)
  have hexp : Real.exp (Real.log 10 * ((u : ℝ) ^ (1.8 : ℝ))) ≤ 10 := by
    have harg : Real.log 10 * ((u : ℝ) ^ (1.8 : ℝ)) ≤ Real.log 10 :=
      mul_le_of_le_one_right (Real.log_nonneg (by norm_num)) ht
    calc Real.exp (Real.log 10 * ((u : ℝ) ^ (1.8 : ℝ)))
        ≤ Real.exp (Real.log 10) := Real.exp_le_exp.mpr harg
      _ = 10 := Real.exp_log (by norm_num)
  nlinarith

theorem pick_two (a b d : ℝ) (u : ℚ) (h0 : 0 ≤ u) (h1 : u < 1) :
    pick [a, b] d u = if u < 1 / 2 then a else b := by
  unfold pick
  by_cases hu : u < 1 / 2
  · have : Nat.floor (u * ([a, b] : List ℝ).length) = 0 := by
      rw [Nat.floor_eq_zero]
      simp only [List.length_cons, List.length_nil]
      push_cast
      linarith
    rw [this, if_pos hu]
    rfl
  · have : Nat.floor (u * ([a, b] : List ℝ).length) = 1 := by
      rw [Nat.floor_eq_iff (by positivity)]
      simp only [List.length_cons, List.length_nil]
      push_cast
      constructor <;> linarith [not_lt.mp hu]
    rw [this, if_neg hu]
    rfl

theorem pick_mem {α : Type} (arr : List α) (dflt : α) (u : ℚ)
    (hne : arr ≠ []) (h0 : 0 ≤ u) (h1 : u < 1) : pick arr dflt u ∈ arr := by
  unfold pick
  have hlen : 0 < arr.length := List.length_pos.mpr hne
  have hidx : Nat.floor (u * arr.length) < arr.length := by
    rw [Nat.floor_lt (by positivity)]
    have : u * arr.length < 1 * arr.length := by
      apply mul_lt_mul_of_pos_right h1
      exact_mod_cast hlen
    rw [one_mul] at this
    exact this
  rw [List.getD_eq_getElem arr dflt hidx]
  exact List.getElem_mem hidx

/-- The fields of `mkRound` in closed form, for case analysis. -/
theorem mkRound_takeA (r : ℕ → ℚ) (k i : ℕ) (c : Knob) :
    (mkRound r k i c).takeA =
      { cutoffHz := randLogFloatSkew CUTOFF_BASE_HZ_MIN CUTOFF_BASE_HZ_MAX
          CUTOFF_BASE_LOG_SKEW (r k)
        resonanceQ := randFloat RESONANCE_BASE_Q_MIN RESONANCE_BASE_Q_MAX (r (k + 1))
        decayMs := randFloat DECAY_BASE_MS_MIN DECAY_BASE_MS_MAX (r (k + 2))
        noteFreqHz := pick NOTE_FREQUENCIES_HZ 98.0 (r (k + 3)) } := rfl

theorem mkRound_takeB_cutoff (r : ℕ → ℚ) (k i : ℕ) :
    (mkRound r k i Knob.cutoff).takeB =
      { (mkRound r k i Knob.cutoff).takeA with
        cutoffHz := perturbCutoff (mkRound r k i Knob.cutoff).takeA.cutoffHz (r (k + 4)) } := rfl

theorem mkRound_takeB_resonance (r : ℕ → ℚ) (k i : ℕ) :
    (mkRound r k i Knob.resonance).takeB =
      { (mkRound r k i Knob.resonance).takeA with
        resonanceQ := perturbResonance (mkRound r k i Knob.resonance).takeA.resonanceQ
          (r (k + 4)) } := rfl

theorem mkRound_takeB_decay (r : ℕ → ℚ) (k i : ℕ) :
    (mkRound r k i Knob.decay).takeB =
      { (mkRound r k i Knob.decay).takeA with
        decayMs := perturbDecay (mkRound r k i Knob.decay).takeA.decayMs (r (k + 4)) } := rfl

/-! ## The fields of a generated round, in closed form -/

theorem mkRound_takeA_fields (r : ℕ → ℚ) (k i : ℕ) (c : Knob) :
    (mkRound r k i c).takeA.cutoffHz
        = randLogFloatSkew CUTOFF_BASE_HZ_MIN CUTOFF_BASE_HZ_MAX CUTOFF_BASE_LOG_SKEW (r k) ∧
    (mkRound r k i c).takeA.resonanceQ
        = randFloat RESONANCE_BASE_Q_MIN RESONANCE_BASE_Q_MAX (r (k + 1)) ∧
    (mkRound r k i c).takeA.decayMs
        = randFloat DECAY_BASE_MS_MIN DECAY_BASE_MS_MAX (r (k + 2)) ∧
    (mkRound r k i c).takeA.noteFreqHz
        = pick NOTE_FREQUENCIES_HZ 98.0 (r (k + 3)) :=
  ⟨rfl, rfl, rfl, rfl⟩

theorem mkRound_takeB_fields_cutoff (r : ℕ → ℚ) (k i : ℕ) :
    (mkRound r k i Knob.cutoff).takeB.cutoffHz
        = perturbCutoff ((mkRound r k i Knob.cutoff).takeA.cutoffHz) (r (k + 4)) ∧
    (mkRound r k i Knob.cutoff).takeB.resonanceQ
        = (mkRound r k i Knob.cutoff).takeA.resonanceQ ∧
    (mkRound r k i Knob.cutoff).takeB.decayMs
        = (mkRound r k i Knob.cutoff).takeA.decayMs ∧
    (mkRound r k i Knob.cutoff).takeB.noteFreqHz
        = (mkRound r k i Knob.cutoff).takeA.noteFreqHz :=
  ⟨rfl, rfl, rfl, rfl⟩

theorem mkRound_takeB_fields_resonance (r : ℕ → ℚ) (k i : ℕ) :
    (mkRound r k i Knob.resonance).takeB.cutoffHz
        = (mkRound r k i Knob.resonance).takeA.cutoffHz ∧
    (mkRound r k i Knob.resonance).takeB.resonanceQ
        = perturbResonance ((mkRound r k i Knob.resonance).takeA.resonanceQ) (r (k + 4)) ∧
    (mkRound r k i Knob.resonance).takeB.decayMs
        = (mkRound r k i Knob.resonance).takeA.decayMs ∧
    (mkRound r k i Knob.resonance).takeB.noteFreqHz
        = (mkRound r k i Knob.resonance).takeA.noteFreqHz :=
  ⟨rfl, rfl, rfl, rfl⟩

theorem mkRound_takeB_fields_decay (r : ℕ → ℚ) (k i : ℕ) :
    (mkRound r k i Knob.decay).takeB.cutoffHz
        = (mkRound r k i Knob.decay).takeA.cutoffHz ∧
    (mkRound r k i Knob.decay).takeB.resonanceQ
        = (mkRound r k i Knob.decay).takeA.resonanceQ ∧
    (mkRound r k i Knob.decay).takeB.decayMs
        = perturbDecay ((mkRound r k i Knob.decay).takeA.decayMs) (r (k + 4)) ∧
    (mkRound r k i Knob.decay).takeB.noteFreqHz
        = (mkRound r k i Knob.decay).takeA.noteFreqHz :=
  ⟨rfl, rfl, rfl, rfl⟩

theorem perturbResonance_bounds (v : ℝ) (u : ℚ) :
    RESONANCE_Q_MIN ≤ perturbResonance v u ∧ perturbResonance v u ≤ RESONANCE_Q_MAX := by
  unfold perturbResonance
  exact clamp_bounds _ (by norm_num [RESONANCE_Q_MIN, RESONANCE_Q_MAX])

theorem perturbDecay_bounds (v : ℝ) (u : ℚ) :
    DECAY_MS_MIN ≤ perturbDecay v u ∧ perturbDecay v u ≤ DECAY_MS_MAX := by
  unfold perturbDecay
  exact clamp_bounds _ (by norm_num [DECAY_MS_MIN, DECAY_MS_MAX])

theorem perturbCutoff_eq (v : ℝ) (u : ℚ) (h0 : 0 ≤ u) (h1 : u < 1) :
    perturbCutoff v u = v * (if u < 1 / 2 then (2.6 : ℝ) else 0.38) := by
  unfold perturbCutoff CUTOFF_CHANGE_MULTIPLIERS
  rw [pick_two _ _ _ _ h0 h1]

/-- Claim C6: for every generated round and every outcome of the draws, the
take-B resonance lies in `[RESONANCE_Q_MIN, RESONANCE_Q_MAX] = [0.5, 12]` and
the take-B decay in `[DECAY_MS_MIN, DECAY_MS_MAX] = [80, 2000]`, while the
take-B cutoff is strictly positive and finite (finiteness rendered as the
explicit bound `CUTOFF_BASE_HZ_MAX * 2.6 = 6500`, the largest value the
unclamped cutoff perturbation can reach from an in-range base). -/
theorem perturbed_values_in_range (r : ℕ → ℚ) (k : ℕ)
    (hr : ∀ n, 0 ≤ r n ∧ r n < 1) (rd : Round) (hmem : rd ∈ generateRounds r k) :
    (RESONANCE_Q_MIN ≤ rd.takeB.resonanceQ ∧ rd.takeB.resonanceQ ≤ RESONANCE_Q_MAX) ∧
    (DECAY_MS_MIN ≤ rd.takeB.decayMs ∧ rd.takeB.decayMs ≤ DECAY_MS_MAX) ∧
    0 < rd.takeB.cutoffHz ∧ rd.takeB.cutoffHz ≤ CUTOFF_BASE_HZ_MAX * 2.6 := by
  obtain ⟨i, hi, hrd⟩ := mem_generateRounds hmem
  subst hrd
  have hres := randFloat_bounds RESONANCE_BASE_Q_MIN RESONANCE_BASE_Q_MAX
    (r (k + 10 + 5 * i + 1)) (hr _).1 (hr _).2
    (by norm_num [RESONANCE_BASE_Q_MIN, RESONANCE_BASE_Q_MAX])
  have hdec := randFloat_bounds DECAY_BASE_MS_MIN DECAY_BASE_MS_MAX
    (r (k + 10 + 5 * i + 2)) (hr _).1 (hr _).2
    (by norm_num [DECAY_BASE_MS_MIN, DECAY_BASE_MS_MAX])
  have hcutpos := cutoff_base_pos (r (k + 10 + 5 * i))
  have hcutub := cutoff_base_ub (r (k + 10 + 5 * i)) (hr _).1 (hr _).2
  have e1 : RESONANCE_Q_MIN = (0.5 : ℝ) := rfl
  have e2 : RESONANCE_Q_MAX = (12.0 : ℝ) := rfl
  have e3 : RESONANCE_BASE_Q_MIN = (0.5 : ℝ) := rfl
  have e4 : RESONANCE_BASE_Q_MAX = (8.0 : ℝ) := rfl
  have e5 : DECAY_MS_MIN = (80 : ℝ) := rfl
  have e6 : DECAY_MS_MAX = (2000 : ℝ) := rfl
  have e7 : DECAY_BASE_MS_MIN = (120 : ℝ) := rfl
  have e8 : DECAY_BASE_MS_MAX = (1200 : ℝ) := rfl
  have e9 : CUTOFF_BASE_HZ_MAX = (2500 : ℝ) := rfl
  cases hknob : (changedKnobList r k).getD i Knob.cutoff with
  | cutoff =>
      obtain ⟨hbc, hbr, hbd, _⟩ := mkRound_takeB_fields_cutoff r (k + 10 + 5 * i) i
      obtain ⟨hac, har, had, _⟩ := mkRound_takeA_fields r (k + 10 + 5 * i) i Knob.cutoff
      rw [hbr, hbd, har, had, hbc, hac,
        perturbCutoff_eq _ _ (hr _).1 (hr _).2]
      refine ⟨⟨by linarith [hres.1], by linarith [hres.2]⟩,
        ⟨by linarith [hdec.1], by linarith [hdec.2]⟩, ?_, ?_⟩
      · split
        · nlinarith [hcutpos]
        · nlinarith [hcutpos]
      · split
        · linarith [hcutub]
        · linarith [hcutub, hcutpos]
  | resonance =>
      obtain ⟨hbc, hbr, hbd, _⟩ := mkRound_takeB_fields_resonance r (k + 10 + 5 * i) i
      obtain ⟨hac, har, had, _⟩ := mkRound_takeA_fields r (k + 10 + 5 * i) i Knob.resonance
      rw [hbr, hbd, had, hbc, hac]
      refine ⟨perturbResonance_bounds _ _, ⟨by linarith [hdec.1], by linarith [hdec.2]⟩,
        by linarith [hcutpos], by linarith [hcutub]⟩
  | decay =>
      obtain ⟨hbc, hbr, hbd, _⟩ := mkRound_takeB_fields_decay r (k + 10 + 5 * i) i
      obtain ⟨hac, har, had, _⟩ := mkRound_takeA_fields r (k + 10 + 5 * i) i Knob.decay
      rw [hbr, hbd, har, hbc, hac]
      refine ⟨⟨by linarith [hres.1], by linarith [hres.2]⟩, perturbDecay_bounds _ _,
        by linarith [hcutpos], by linarith [hcutub]⟩

/-- Claim C7: the cutoff perturbation multiplies the base value by one of the
two fixed multipliers `2.6` and `0.38` (the index chosen by a uniform draw),
applies no clamping, and leaves every other field of takeB equal to takeA; in
particular a base cutoff of 500 Hz with the multiplier draw selecting `2.6`
yields `takeB.cutoffHz = 1300`. -/
theorem cutoff_perturbation_unclamped (r : ℕ → ℚ) (k : ℕ)
    (hr : ∀ n, 0 ≤ r n ∧ r n < 1) :
    (∀ rd ∈ generateRounds r k, rd.changedKnob = Knob.cutoff →
      (rd.takeB.cutoffHz = rd.takeA.cutoffHz * 2.6 ∨
        rd.takeB.cutoffHz = rd.takeA.cutoffHz * 0.38) ∧
      rd.takeB.resonanceQ = rd.takeA.resonanceQ ∧
      rd.takeB.decayMs = rd.takeA.decayMs ∧
      rd.takeB.noteFreqHz = rd.takeA.noteFreqHz) ∧
    (∀ (v : ℝ) (u : ℚ), 0 ≤ u → u < 1 →
      perturbCutoff v u = v * (if u < 1 / 2 then (2.6 : ℝ) else 0.38)) ∧
    (∀ u : ℚ, 0 ≤ u → u < 1 / 2 → perturbCutoff 500 u = 1300) := by
  refine ⟨?_, fun v u h0 h1 => perturbCutoff_eq v u h0 h1, ?_⟩
  · intro rd hmem hck
    obtain ⟨i, hi, hrd⟩ := mem_generateRounds hmem
    subst hrd
    rw [mkRound_changedKnob] at hck
    rw [hck] at *
    obtain ⟨hbc, hbr, hbd, hbn⟩ := mkRound_takeB_fields_cutoff r (k + 10 + 5 * i) i
    refine ⟨?_, hbr, hbd, hbn⟩
    rw [hbc, perturbCutoff_eq _ _ (hr _).1 (hr _).2]
    split
    · exact Or.inl rfl
    · exact Or.inr rfl
  · intro u h0 h1
    rw [perturbCutoff_eq 500 u h0 (lt_trans h1 (by norm_num)), if_pos h1]
    norm_num

/-- Claim C10: every generated round's shared pitch `noteFreqHz` is an element
of the fixed five-value set `NOTE_FREQUENCIES_HZ`, and takeA and takeB carry
the very same value (both copy the one base draw, so equality is exact). -/
theorem note_pitch_from_fixed_set (r : ℕ → ℚ) (k : ℕ)
    (hr : ∀ n, 0 ≤ r n ∧ r n < 1) (rd : Round) (hmem : rd ∈ generateRounds r k) :
    rd.takeA.noteFreqHz ∈ NOTE_FREQUENCIES_HZ ∧
    rd.takeB.noteFreqHz = rd.takeA.noteFreqHz := by
  obtain ⟨i, hi, hrd⟩ := mem_generateRounds hmem
  subst hrd
  constructor
  · rw [(mkRound_takeA_fields r (k + 10 + 5 * i) i _).2.2.2]
    exact pick_mem _ _ _ (by simp [NOTE_FREQUENCIES_HZ]) (hr _).1 (hr _).2
  · exact (mkRound_noteFreq_eq r (k + 10 + 5 * i) i _).symm

/-- Claim C4: the oscillator stop time equals
`max(noteStartTime + 0.01, min(hardStopTime, noteStartTime + attack + decay + release))`,
is never earlier than 10 ms past the note start (even when `hardStopTime` is
at or before the start), and a voice with `decayMs = 120000` whose hard stop
is 50 ms after the start stops exactly at `noteStartTime + 0.05`. -/
theorem voice_stop_time (params : ParameterSet) (noteStartTime hardStopTime : ℝ) :
    (scheduleVoice params noteStartTime hardStopTime).stopAt
      = Max.max (noteStartTime + 0.01)
          (Min.min hardStopTime
            (noteStartTime + AMP_ATTACK_SECONDS + msToSec params.decayMs
              + AMP_RELEASE_SECONDS)) ∧
    noteStartTime + 0.01 ≤ (scheduleVoice params noteStartTime hardStopTime).stopAt ∧
    (∀ c q f s : ℝ,
      (scheduleVoice { cutoffHz := c, resonanceQ := q, decayMs := 120000, noteFreqHz := f }
          s (s + 0.05)).stopAt = s + 0.05) := by
  refine ⟨?_, ?_, ?_⟩
  · show Max.max (noteStartTime + 0.01)
        (Min.min (noteStartTime + AMP_ATTACK_SECONDS + msToSec params.decayMs
          + AMP_RELEASE_SECONDS) hardStopTime) = _
    rw [min_comm]
  · exact le_max_left _ _
  · intro c q f s
    show Max.max (s + 0.01)
        (Min.min (s + AMP_ATTACK_SECONDS + msToSec 120000 + AMP_RELEASE_SECONDS)
          (s + 0.05)) = s + 0.05
    have h1 : Min.min (s + AMP_ATTACK_SECONDS + msToSec 120000 + AMP_RELEASE_SECONDS)
        (s + 0.05) = s + 0.05 := by
      apply min_eq_right
      simp only [AMP_ATTACK_SECONDS, AMP_RELEASE_SECONDS, msToSec]
      have h120 : (120000 : ℝ) / 1000 = 120 := by norm_num
      rw [h120]
      linarith
    rw [h1]
    apply max_eq_right
    linarith

theorem cycleStart_ge_cursor (lnAt t : ℚ) : lnAt ≤ cycleStart lnAt t := by
  unfold cycleStart
  split
  · linarith
  · linarith

/-- Claim C5 counterexample: at audio-clock reading `now = 0` with planned
cursor `loopNextAt = 0.01`, the code starts the cycle at `0.01` (its clamp
floor is `now + 0.005`), not at
`max(now + SCHEDULING_LEAD_SECONDS, loopNextAt) = 0.05` as the claim's
formula demands. -/
theorem cycleStart_ne_lead_formula :
    cycleStart 0.01 0 = 0.01 ∧
    Max.max ((0 : ℚ) + SCHEDULING_LEAD_SECONDS) 0.01 = 0.05 ∧
    cycleStart 0.01 0 ≠ Max.max ((0 : ℚ) + SCHEDULING_LEAD_SECONDS) 0.01 := by
  have hc : cycleStart 0.01 0 = 0.01 := by
    unfold cycleStart
    rw [if_neg]
    norm_num
  have hl : ((0 : ℚ) + SCHEDULING_LEAD_SECONDS) = 0.05 := by
    norm_num [SCHEDULING_LEAD_SECONDS]
  have hm : Max.max ((0 : ℚ) + SCHEDULING_LEAD_SECONDS) 0.01 = 0.05 := by
    rw [hl, max_eq_left (by norm_num)]
  refine ⟨hc, hm, ?_⟩
  rw [hc, hm]
  norm_num

theorem cycleStart_max (lnAt t : ℚ) : cycleStart lnAt t = Max.max (t + 0.005) lnAt := by
  unfold cycleStart
  split
  · rename_i h
    exact (max_eq_left (by linarith)).symm
  · rename_i h
    exact (max_eq_right (by linarith [not_lt.mp h])).symm

theorem snlc_loopNextAt_eq (s : SchedState) (token : ℕ) (now : ℚ)
    (h1 : token = s.playbackToken) (h2 : s.answered = false)
    (h3 : s.hasRoundOutput = true) :
    (scheduleNextLoopCycle token now s).1.loopNextAt
      = (playRoundTimes (cycleStart s.loopNextAt now)).endAt
          + LOOP_CYCLE_PAUSE_SECONDS := by
  unfold scheduleNextLoopCycle
  rw [if_neg (by simp [h1]), if_neg (by simp [h2]), if_neg (by simp [h3])]
  simp [scheduleUi]

/-- Claim C5, amended: in the `LOOPING` state each cycle starts at
`max(audioClockNow + 0.005, lastPlannedCursor)` — the clamp floor is the
fixed 5 ms guard of `scheduleNextLoopCycle`, not the 50 ms scheduling lead
(the lead only times the initial cursor and when the continuation fires) —
and `lastPlannedCursor` is advanced to the cycle's `endAt` plus the
inter-cycle pause. -/
theorem cycle_start_formula (s : SchedState) (token : ℕ) (now : ℚ)
    (h1 : token = s.playbackToken) (h2 : s.answered = false)
    (h3 : s.hasRoundOutput = true) :
    (∀ lnAt t : ℚ, cycleStart lnAt t = Max.max (t + 0.005) lnAt) ∧
    (scheduleNextLoopCycle token now s).1.loopNextAt
      = (playRoundTimes (cycleStart s.loopNextAt now)).endAt
          + LOOP_CYCLE_PAUSE_SECONDS :=
  ⟨fun lnAt t => cycleStart_max lnAt t, snlc_loopNextAt_eq s token now h1 h2 h3⟩

/-- Claim C8: within one cycle the boundary timestamps satisfy
`aStart < aEnd ≤ bStart < bEnd ≤ endAt`, and across successive loop cycles of
one round the next cycle's `aStart` is strictly greater than the previous
one's, with a gap of at least the configured inter-cycle pause after the
previous cycle's `endAt` (whatever the clock reads when the continuation
fires). -/
theorem playback_cycle_monotonic (when : ℚ) (s : SchedState) (token : ℕ)
    (now now' : ℚ) (h1 : token = s.playbackToken) (h2 : s.answered = false)
    (h3 : s.hasRoundOutput = true) :
    ((playRoundTimes when).aStart < (playRoundTimes when).aEnd ∧
     (playRoundTimes when).aEnd ≤ (playRoundTimes when).bStart ∧
     (playRoundTimes when).bStart < (playRoundTimes when).bEnd ∧
     (playRoundTimes when).bEnd ≤ (playRoundTimes when).endAt) ∧
    (playRoundTimes (cycleStart s.loopNextAt now)).endAt + LOOP_CYCLE_PAUSE_SECONDS
      ≤ cycleStart (scheduleNextLoopCycle token now s).1.loopNextAt now' ∧
    cycleStart s.loopNextAt now
      < cycleStart (scheduleNextLoopCycle token now s).1.loopNextAt now' := by
  have hcursor := snlc_loopNextAt_eq s token now h1 h2 h3
  refine ⟨?_, ?_⟩
  · unfold playRoundTimes TAKE_SECONDS SILENCE_GAP_SECONDS
    refine ⟨by norm_num, by norm_num, by norm_num, by norm_num⟩
  · rw [hcursor]
    have hge := cycleStart_ge_cursor
      ((playRoundTimes (cycleStart s.loopNextAt now)).endAt + LOOP_CYCLE_PAUSE_SECONDS) now'
    refine ⟨hge, ?_⟩
    have hends : (playRoundTimes (cycleStart s.loopNextAt now)).endAt
        = cycleStart s.loopNextAt now + TAKE_SECONDS + SILENCE_GAP_SECONDS
            + TAKE_SECONDS := by
      unfold playRoundTimes
      ring
    have hpos : (0 : ℚ) < TAKE_SECONDS + SILENCE_GAP_SECONDS + TAKE_SECONDS
        + LOOP_CYCLE_PAUSE_SECONDS := by
      norm_num [TAKE_SECONDS, SILENCE_GAP_SECONDS, LOOP_CYCLE_PAUSE_SECONDS]
    linarith

/-! ## Cancellation: stale tokens and the answered flag -/

theorem fireTimer_stale (t : PTimer) (now : ℚ) (s : SchedState)
    (h : t.token ≠ s.playbackToken) : fireTimer t now s = (s, []) := by
  unfold fireTimer
  rw [if_pos h]

theorem snlc_noop_of_answered (token : ℕ) (now : ℚ) (s : SchedState)
    (h : s.answered = true) : scheduleNextLoopCycle token now s = (s, []) := by
  unfold scheduleNextLoopCycle
  repeat' split
  all_goals rfl

theorem snlc_answered_eq (token : ℕ) (now : ℚ) (s : SchedState) :
    ((scheduleNextLoopCycle token now s).1).answered = s.answered := by
  unfold scheduleNextLoopCycle
  repeat' split
  all_goals rfl

theorem handleAnswer_cases (k : Knob) (s : SchedState) :
    (handleAnswer k s).1 = s ∨
    ((handleAnswer k s).1.answered = true ∧ (handleAnswer k s).1.phaseTimers = []) := by
  unfold handleAnswer
  split
  · exact Or.inl rfl
  · split
    · exact Or.inl rfl
    · refine Or.inr ⟨?_, ?_⟩ <;>
        simp [stopRoundAudio, clearPhaseTimers] <;> split <;> rfl

theorem startRound_answered (i : ℕ) (now : ℚ) (s : SchedState) :
    ((startRound i now s).1).answered = false := by
  simp only [startRound, snlc_answered_eq]

theorem startNewGame_answered (ks : List Knob) (now : ℚ) (s : SchedState) :
    ((startNewGame ks now s).1).answered = false := by
  simp only [startNewGame, startRound_answered]

theorem finishGame_timers (s : SchedState) : ((finishGame s).1).phaseTimers = [] := by
  simp only [finishGame, clearTimers, stopRoundAudio]
  split <;> rfl

theorem step_preserves_timersInv {s s' : SchedState} (hstep : Step s s')
    (hinv : s.answered = true → s.phaseTimers = []) :
    s'.answered = true → s'.phaseTimers = [] := by
  cases hstep with
  | fire t now hmem =>
      intro hans
      obtain ⟨tok', d', kind'⟩ := t
      by_cases htok : tok' ≠ s.playbackToken
      · rw [fireTimer_stale _ now s htok] at hans ⊢
        exact hinv hans
      · cases kind' with
        | phase p =>
            unfold fireTimer at hans ⊢
            rw [if_neg htok] at hans ⊢
            exact hinv hans
        | loopCont =>
            unfold fireTimer at hans ⊢
            rw [if_neg htok] at hans ⊢
            have hsa : s.answered = true := by
              rw [snlc_answered_eq] at hans
              exact hans
            rw [snlc_noop_of_answered _ now s hsa]
            exact hinv hsa
  | answer k =>
      intro hans
      rcases handleAnswer_cases k s with h | h
      · rw [h] at hans ⊢
        exact hinv hans
      · exact h.2
  | advance i now =>
      intro hans
      rw [startRound_answered] at hans
      exact absurd hans (by simp)
  | finish =>
      intro _
      exact finishGame_timers s
  | newGame ks now =>
      intro hans
      rw [startNewGame_answered] at hans
      exact absurd hans (by simp)

theorem reachable_timersInv {s : SchedState} (h : Reachable s) :
    s.answered = true → s.phaseTimers = [] := by
  induction h with
  | refl =>
      intro hans
      simp [initState] at hans
  | tail hsteps hstep ih => exact step_preserves_timersInv hstep ih

/-- Claim C3: continuations capture the session token at schedule time
(`scheduleUi` stores it in the pending timer), a stale-token callback
performs no action when it fires, the loop continuation is a no-op once the
round's answered flag is set (even with the current token), and in every
reachable answered state the pending phase timers are empty — `handleAnswer`
sets the flag and clears them atomically — so after an answer is accepted no
further synthesis cycle is scheduled and no phase-change callback for the
superseded session runs. -/
theorem answer_cancels_pending_work (s : SchedState) (t : PTimer) (token : ℕ)
    (now d : ℚ) (k : Knob) (hreach : Reachable s) (hans : s.answered = true)
    (htok : t.token ≠ s.playbackToken) :
    s.phaseTimers = [] ∧
    fireTimer t now s = (s, []) ∧
    scheduleNextLoopCycle token now s = (s, []) ∧
    fireTimer { token := s.playbackToken, delaySeconds := d, kind := TKind.loopCont }
        now s = (s, []) ∧
    (∀ (tok : ℕ) (dl : ℚ) (kd : TKind) (s' : SchedState),
      (scheduleUi tok dl kd s').phaseTimers
        = s'.phaseTimers ++ [{ token := tok, delaySeconds := dl, kind := kd }]) ∧
    (∀ s' : SchedState, (handleAnswer k s').1 = s' ∨
      ((handleAnswer k s').1.answered = true ∧ (handleAnswer k s').1.phaseTimers = [])) := by
  refine ⟨reachable_timersInv hreach hans, fireTimer_stale t now s htok,
    snlc_noop_of_answered token now s hans, ?_, fun tok dl kd s' => rfl,
    fun s' => handleAnswer_cases k s'⟩
  unfold fireTimer
  rw [if_neg (by simp)]
  exact snlc_noop_of_answered _ now s hans

theorem halfStream_valid : ∀ n, 0 ≤ halfStream n ∧ halfStream n < 1 := by
  intro n
  unfold halfStream
  norm_num

theorem halfStream_floor (k m : ℕ) : Nat.floor (halfStream k * (m : ℚ)) = m / 2 := by
  unfold halfStream
  rw [show (1 / 2 : ℚ) * (m : ℚ) = (m : ℚ) / 2 by ring,
    show (2 : ℚ) = ((2 : ℕ) : ℚ) by norm_num, Nat.floor_div_nat, Nat.floor_natCast]

theorem shuffleAux_step {α : Type} (r : ℕ → ℚ) (k : ℕ) (l : List α) (i : ℕ) :
    shuffleAux r k l (i + 1)
      = shuffleAux r (k + 1) (listSwap l (i + 1) (Nat.floor (r k * (i + 1 + 1 : ℕ)))) i := rfl

theorem pick_half_knob : pick KNOBS Knob.cutoff (halfStream 0) = Knob.resonance := by
  unfold pick
  rw [halfStream_floor]
  rfl

theorem changedKnobs_half : changedKnobList halfStream 0 = halfKnobs := by
  unfold changedKnobList
  rw [pick_half_knob]
  rw [show knobBag ++ [Knob.resonance]
      = [Knob.cutoff, Knob.cutoff, Knob.cutoff, Knob.resonance, Knob.resonance, Knob.resonance, Knob.decay, Knob.decay, Knob.decay, Knob.resonance] from by decide]
  show shuffleAux halfStream 1
    [Knob.cutoff, Knob.cutoff, Knob.cutoff, Knob.resonance, Knob.resonance, Knob.resonance, Knob.decay, Knob.decay, Knob.decay, Knob.resonance] 9 = halfKnobs
  rw [show (9 : ℕ) = 8 + 1 from rfl, shuffleAux_step, halfStream_floor,
    show listSwap ([Knob.cutoff, Knob.cutoff, Knob.cutoff, Knob.resonance, Knob.resonance, Knob.resonance, Knob.decay, Knob.decay, Knob.decay, Knob.resonance] : List Knob)
        (8 + 1) ((8 + 1 + 1) / 2) = [Knob.cutoff, Knob.cutoff, Knob.cutoff, Knob.resonance, Knob.resonance, Knob.resonance, Knob.decay, Knob.decay, Knob.decay, Knob.resonance] from by decide]
  rw [show (8 : ℕ) = 7 + 1 from rfl, shuffleAux_step, halfStream_floor,
    show listSwap ([Knob.cutoff, Knob.cutoff, Knob.cutoff, Knob.resonance, Knob.resonance, Knob.resonance, Knob.decay, Knob.decay, Knob.decay, Knob.resonance] : List Knob)
        (7 + 1) ((7 + 1 + 1) / 2) = [Knob.cutoff, Knob.cutoff, Knob.cutoff, Knob.resonance, Knob.decay, Knob.resonance, Knob.decay, Knob.decay, Knob.resonance, Knob.resonance] from by decide]
  rw [show (7 : ℕ) = 6 + 1 from rfl, shuffleAux_step, halfStream_floor,
    show listSwap ([Knob.cutoff, Knob.cutoff, Knob.cutoff, Knob.resonance, Knob.decay, Knob.resonance, Knob.decay, Knob.decay, Knob.resonance, Knob.resonance] : List Knob)
        (6 + 1) ((6 + 1 + 1) / 2) = [Knob.cutoff, Knob.cutoff, Knob.cutoff, Knob.resonance, Knob.decay, Knob.resonance, Knob.decay, Knob.decay, Knob.resonance, Knob.resonance] from by decide]
  rw [show (6 : ℕ) = 5 + 1 from rfl, shuffleAux_step, halfStream_floor,
    show listSwap ([Knob.cutoff, Knob.cutoff, Knob.cutoff, Knob.resonance, Knob.decay, Knob.resonance, Knob.decay, Knob.decay, Knob.resonance, Knob.resonance] : List Knob)
        (5 + 1) ((5 + 1 + 1) / 2) = [Knob.cutoff, Knob.cutoff, Knob.cutoff, Knob.decay, Knob.decay, Knob.resonance, Knob.resonance, Knob.decay, Knob.resonance, Knob.resonance] from by decide]
  rw [show (5 : ℕ) = 4 + 1 from rfl, shuffleAux_step, halfStream_floor,
    show listSwap ([Knob.cutoff, Knob.cutoff, Knob.cutoff, Knob.decay, Knob.decay, Knob.resonance, Knob.resonance, Knob.decay, Knob.resonance, Knob.resonance] : List Knob)
        (4 + 1) ((4 + 1 + 1) / 2) = [Knob.cutoff, Knob.cutoff, Knob.cutoff, Knob.resonance, Knob.decay, Knob.decay, Knob.resonance, Knob.decay, Knob.resonance, Knob.resonance] from by decide]
  rw [show (4 : ℕ) = 3 + 1 from rfl, shuffleAux_step, halfStream_floor,
    show listSwap ([Knob.cutoff, Knob.cutoff, Knob.cutoff, Knob.resonance, Knob.decay, Knob.decay, Knob.resonance, Knob.decay, Knob.resonance, Knob.resonance] : List Knob)
        (3 + 1) ((3 + 1 + 1) / 2) = [Knob.cutoff, Knob.cutoff, Knob.decay, Knob.resonance, Knob.cutoff, Knob.decay, Knob.resonance, Knob.decay, Knob.resonance, Knob.resonance] from by decide]
  rw [show (3 : ℕ) = 2 + 1 from rfl, shuffleAux_step, halfStream_floor,
    show listSwap ([Knob.cutoff, Knob.cutoff, Knob.decay, Knob.resonance, Knob.cutoff, Knob.decay, Knob.resonance, Knob.decay, Knob.resonance, Knob.resonance] : List Knob)
        (2 + 1) ((2 + 1 + 1) / 2) = [Knob.cutoff, Knob.cutoff, Knob.resonance, Knob.decay, Knob.cutoff, Knob.decay, Knob.resonance, Knob.decay, Knob.resonance, Knob.resonance] from by decide]
  rw [show (2 : ℕ) = 1 + 1 from rfl, shuffleAux_step, halfStream_floor,
    show listSwap ([Knob.cutoff, Knob.cutoff, Knob.resonance, Knob.decay, Knob.cutoff, Knob.decay, Knob.resonance, Knob.decay, Knob.resonance, Knob.resonance] : List Knob)
        (1 + 1) ((1 + 1 + 1) / 2) = [Knob.cutoff, Knob.resonance, Knob.cutoff, Knob.decay, Knob.cutoff, Knob.decay, Knob.resonance, Knob.decay, Knob.resonance, Knob.resonance] from by decide]
  rw [show (1 : ℕ) = 0 + 1 from rfl, shuffleAux_step, halfStream_floor,
    show listSwap ([Knob.cutoff, Knob.resonance, Knob.cutoff, Knob.decay, Knob.cutoff, Knob.decay, Knob.resonance, Knob.decay, Knob.resonance, Knob.resonance] : List Knob)
        (0 + 1) ((0 + 1 + 1) / 2) = [Knob.cutoff, Knob.resonance, Knob.cutoff, Knob.decay, Knob.cutoff, Knob.decay, Knob.resonance, Knob.decay, Knob.resonance, Knob.resonance] from by decide]
  rfl

theorem nearEqual_self (a : ℝ) : nearEqual a a := by
  unfold nearEqual PARAM_EPS
  norm_num

theorem half_res_base (k : ℕ) :
    randFloat RESONANCE_BASE_Q_MIN RESONANCE_BASE_Q_MAX (halfStream k) = 4.25 := by
  unfold randFloat halfStream RESONANCE_BASE_Q_MIN RESONANCE_BASE_Q_MAX
  push_cast
  norm_num

theorem half_dec_base (k : ℕ) :
    randFloat DECAY_BASE_MS_MIN DECAY_BASE_MS_MAX (halfStream k) = 660 := by
  unfold randFloat halfStream DECAY_BASE_MS_MIN DECAY_BASE_MS_MAX
  push_cast
  norm_num

theorem half_perturb_res (k : ℕ) : perturbResonance 4.25 (halfStream k) = 6.25 := by
  unfold perturbResonance halfStream RESONANCE_CHANGE_DELTA_Q RESONANCE_Q_MIN
    RESONANCE_Q_MAX clamp
  rw [if_neg (by norm_num)]
  show (12.0 : ℝ) ⊓ ((0.5 : ℝ) ⊔ ((4.25 : ℝ) + 1 * 2.0)) = 6.25
  rw [show (4.25 : ℝ) + 1 * 2.0 = 6.25 by norm_num,
    max_eq_right (by norm_num), min_eq_right (by norm_num)]

theorem half_perturb_dec (k : ℕ) : perturbDecay 660 (halfStream k) = 396 := by
  unfold perturbDecay DECAY_CHANGE_MULTIPLIERS DECAY_MS_MIN DECAY_MS_MAX clamp
  rw [pick_two _ _ _ _ (halfStream_valid k).1 (halfStream_valid k).2,
    if_neg (by unfold halfStream; norm_num),
    show (660 : ℝ) * 0.6 = 396 by norm_num]
  rw [max_eq_right (by norm_num), min_eq_right (by norm_num)]

theorem half_perturb_cut (v : ℝ) (k : ℕ) : perturbCutoff v (halfStream k) = v * 0.38 := by
  rw [perturbCutoff_eq v _ (halfStream_valid k).1 (halfStream_valid k).2,
    if_neg (by unfold halfStream; norm_num)]

theorem not_nearEqual_res : ¬ nearEqual 4.25 6.25 := by
  unfold nearEqual PARAM_EPS
  rw [show |(4.25 : ℝ) - 6.25| = 2 by rw [abs_of_neg (by norm_num)]; norm_num]
  norm_num

theorem not_nearEqual_dec : ¬ nearEqual 660 396 := by
  unfold nearEqual PARAM_EPS
  rw [show |(660 : ℝ) - 396| = 264 by rw [abs_of_nonneg (by norm_num)]; norm_num]
  norm_num

theorem not_nearEqual_cut {b : ℝ} (hb : 250 ≤ b) : ¬ nearEqual b (b * 0.38) := by
  unfold nearEqual PARAM_EPS
  intro h
  have habs := le_abs_self (b - b * 0.38)
  nlinarith

theorem roundDiffs_half_cutoff (k i : ℕ) :
    roundDiffs (mkRound halfStream k i Knob.cutoff) = [Knob.cutoff] := by
  obtain ⟨hbc, hbr, hbd, _⟩ := mkRound_takeB_fields_cutoff halfStream k i
  obtain ⟨hac, _, _, _⟩ := mkRound_takeA_fields halfStream k i Knob.cutoff
  unfold roundDiffs
  rw [hbc, hbr, hbd, half_perturb_cut, hac,
    if_neg (not_nearEqual_cut (cutoff_base_lb _ (halfStream_valid k).1)),
    if_pos (nearEqual_self _), if_pos (nearEqual_self _)]
  rfl

theorem roundDiffs_half_resonance (k i : ℕ) :
    roundDiffs (mkRound halfStream k i Knob.resonance) = [Knob.resonance] := by
  obtain ⟨hbc, hbr, hbd, _⟩ := mkRound_takeB_fields_resonance halfStream k i
  obtain ⟨_, har, _, _⟩ := mkRound_takeA_fields halfStream k i Knob.resonance
  unfold roundDiffs
  rw [hbc, hbr, hbd, har, half_res_base, half_perturb_res,
    if_pos (nearEqual_self _), if_neg not_nearEqual_res, if_pos (nearEqual_self _)]
  rfl

theorem roundDiffs_half_decay (k i : ℕ) :
    roundDiffs (mkRound halfStream k i Knob.decay) = [Knob.decay] := by
  obtain ⟨hbc, hbr, hbd, _⟩ := mkRound_takeB_fields_decay halfStream k i
  obtain ⟨_, _, had, _⟩ := mkRound_takeA_fields halfStream k i Knob.decay
  unfold roundDiffs
  rw [hbc, hbr, hbd, had, half_dec_base, half_perturb_dec,
    if_pos (nearEqual_self _), if_pos (nearEqual_self _), if_neg not_nearEqual_dec]
  rfl

theorem roundErrors_half_cutoff (k i : ℕ) :
    roundErrors (mkRound halfStream k i Knob.cutoff) = [] := by
  unfold roundErrors
  rw [if_pos (by rw [mkRound_noteFreq_eq halfStream k i Knob.cutoff]; exact nearEqual_self _),
    roundDiffs_half_cutoff]
  simp [mkRound_changedKnob]

theorem roundErrors_half_resonance (k i : ℕ) :
    roundErrors (mkRound halfStream k i Knob.resonance) = [] := by
  unfold roundErrors
  rw [if_pos (by rw [mkRound_noteFreq_eq halfStream k i Knob.resonance]; exact nearEqual_self _),
    roundDiffs_half_resonance]
  simp [mkRound_changedKnob]

theorem roundErrors_half_decay (k i : ℕ) :
    roundErrors (mkRound halfStream k i Knob.decay) = [] := by
  unfold roundErrors
  rw [if_pos (by rw [mkRound_noteFreq_eq halfStream k i Knob.decay]; exact nearEqual_self _),
    roundDiffs_half_decay]
  simp [mkRound_changedKnob]

theorem generateRounds_half_eq :
    generateRounds halfStream 0 =
      [mkRound halfStream 10 0 Knob.cutoff,
       mkRound halfStream 15 1 Knob.resonance,
       mkRound halfStream 20 2 Knob.cutoff,
       mkRound halfStream 25 3 Knob.decay,
       mkRound halfStream 30 4 Knob.cutoff,
       mkRound halfStream 35 5 Knob.decay,
       mkRound halfStream 40 6 Knob.resonance,
       mkRound halfStream 45 7 Knob.decay,
       mkRound halfStream 50 8 Knob.resonance,
       mkRound halfStream 55 9 Knob.resonance] := by
  unfold generateRounds
  rw [changedKnobs_half]
  rfl

theorem validate_half_ok : (validateRounds (generateRounds halfStream 0)).ok = true := by
  have hflat : (generateRounds halfStream 0).flatMap roundErrors = [] := by
    rw [generateRounds_half_eq]
    simp only [List.flatMap_cons, List.flatMap_nil, roundErrors_half_cutoff,
      roundErrors_half_resonance, roundErrors_half_decay, List.append_nil,
      List.nil_append]
  have hlen : (generateRounds halfStream 0).length = ROUNDS_PER_GAME := by
    rw [generateRounds_half_eq]
    rfl
  have hmap : (generateRounds halfStream 0).map (fun rd => rd.changedKnob) = halfKnobs := by
    rw [generateRounds_map_changedKnob, changedKnobs_half]
  unfold validateRounds knobCount
  simp only [hlen, hflat, hmap]
  decide

theorem buildNewRounds_half :
    buildNewRounds halfStream = some (generateRounds halfStream 0) := by
  unfold buildNewRounds
  rw [show (50 : ℕ) = 49 + 1 from rfl, buildNewRoundsAux]
  show (if (validateRounds (generateRounds halfStream (60 * 0))).ok = true
      then some (generateRounds halfStream (60 * 0))
      else buildNewRoundsAux halfStream 49 1) = some (generateRounds halfStream 0)
  rw [if_pos (show (validateRounds (generateRounds halfStream (60 * 0))).ok = true
    from validate_half_ok)]

theorem sampleRound_mem : sampleRound ∈ generateRounds halfStream 0 := by
  rw [generateRounds_half_eq]
  exact List.mem_cons_self _ _

theorem wsReach : Reachable wsState2 :=
  Relation.ReflTransGen.tail
    (Relation.ReflTransGen.single (Step.advance initState 0 0))
    (Step.answer wsState1 Knob.cutoff)

/-! ## Witnesses: the claim theorems instantiated at concrete inputs -/

/-- Claim C1 witness at the `halfStream` pipeline run. -/
theorem delivered_rounds_single_difference_witness :
    sampleRound.takeA.noteFreqHz = sampleRound.takeB.noteFreqHz ∧
    (¬ nearEqual sampleRound.takeA.cutoffHz sampleRound.takeB.cutoffHz ↔
      sampleRound.changedKnob = Knob.cutoff) ∧
    (¬ nearEqual sampleRound.takeA.resonanceQ sampleRound.takeB.resonanceQ ↔
      sampleRound.changedKnob = Knob.resonance) ∧
    (¬ nearEqual sampleRound.takeA.decayMs sampleRound.takeB.decayMs ↔
      sampleRound.changedKnob = Knob.decay) :=
  delivered_rounds_single_difference halfStream (generateRounds halfStream 0)
    buildNewRounds_half sampleRound sampleRound_mem

/-- Claim C3 witness: the state after `startRound` then an accepted answer. -/
theorem answer_cancels_pending_work_witness :
    wsState2.phaseTimers = [] ∧
    fireTimer wsTimer 0 wsState2 = (wsState2, []) ∧
    scheduleNextLoopCycle 0 0 wsState2 = (wsState2, []) ∧
    fireTimer (PTimer.mk wsState2.playbackToken 0 TKind.loopCont) 0 wsState2
        = (wsState2, []) ∧
    (∀ (tok : ℕ) (dl : ℚ) (kd : TKind) (s' : SchedState),
      (scheduleUi tok dl kd s').phaseTimers
        = s'.phaseTimers ++ [PTimer.mk tok dl kd]) ∧
    (∀ s' : SchedState, (handleAnswer Knob.cutoff s').1 = s' ∨
      ((handleAnswer Knob.cutoff s').1.answered = true ∧
        (handleAnswer Knob.cutoff s').1.phaseTimers = [])) :=
  answer_cancels_pending_work wsState2 wsTimer 0 0 0 Knob.cutoff wsReach rfl
    (by decide)

/-- Claim C5, amended witness in a `LOOPING` state. -/
theorem cycle_start_formula_witness :
    (∀ lnAt t : ℚ, cycleStart lnAt t = Max.max (t + 0.005) lnAt) ∧
    (scheduleNextLoopCycle 0 0 wsLooping).1.loopNextAt
      = (playRoundTimes (cycleStart wsLooping.loopNextAt 0)).endAt
          + LOOP_CYCLE_PAUSE_SECONDS :=
  cycle_start_formula wsLooping 0 0 rfl rfl rfl

/-- Claim C6 witness at the first `halfStream` round. -/
theorem perturbed_values_in_range_witness :
    (RESONANCE_Q_MIN ≤ sampleRound.takeB.resonanceQ ∧
      sampleRound.takeB.resonanceQ ≤ RESONANCE_Q_MAX) ∧
    (DECAY_MS_MIN ≤ sampleRound.takeB.decayMs ∧
      sampleRound.takeB.decayMs ≤ DECAY_MS_MAX) ∧
    0 < sampleRound.takeB.cutoffHz ∧
    sampleRound.takeB.cutoffHz ≤ CUTOFF_BASE_HZ_MAX * 2.6 :=
  perturbed_values_in_range halfStream 0 halfStream_valid sampleRound sampleRound_mem

/-- Claim C7 witness on the `halfStream` batch. -/
theorem cutoff_perturbation_unclamped_witness :
    (∀ rd ∈ generateRounds halfStream 0, rd.changedKnob = Knob.cutoff →
      (rd.takeB.cutoffHz = rd.takeA.cutoffHz * 2.6 ∨
        rd.takeB.cutoffHz = rd.takeA.cutoffHz * 0.38) ∧
      rd.takeB.resonanceQ = rd.takeA.resonanceQ ∧
      rd.takeB.decayMs = rd.takeA.decayMs ∧
      rd.takeB.noteFreqHz = rd.takeA.noteFreqHz) ∧
    (∀ (v : ℝ) (u : ℚ), 0 ≤ u → u < 1 →
      perturbCutoff v u = v * (if u < 1 / 2 then (2.6 : ℝ) else 0.38)) ∧
    (∀ u : ℚ, 0 ≤ u → u < 1 / 2 → perturbCutoff 500 u = 1300) :=
  cutoff_perturbation_unclamped halfStream 0 halfStream_valid

/-- Claim C8 witness in a `LOOPING` state. -/
theorem playback_cycle_monotonic_witness :
    ((playRoundTimes 0).aStart < (playRoundTimes 0).aEnd ∧
     (playRoundTimes 0).aEnd ≤ (playRoundTimes 0).bStart ∧
     (playRoundTimes 0).bStart < (playRoundTimes 0).bEnd ∧
     (playRoundTimes 0).bEnd ≤ (playRoundTimes 0).endAt) ∧
    (playRoundTimes (cycleStart wsLooping.loopNextAt 0)).endAt
        + LOOP_CYCLE_PAUSE_SECONDS
      ≤ cycleStart (scheduleNextLoopCycle 0 0 wsLooping).1.loopNextAt 0 ∧
    cycleStart wsLooping.loopNextAt 0
      < cycleStart (scheduleNextLoopCycle 0 0 wsLooping).1.loopNextAt 0 :=
  playback_cycle_monotonic 0 wsLooping 0 0 0 rfl rfl rfl

/-- Claim C10 witness at the first `halfStream` round. -/
theorem note_pitch_from_fixed_set_witness :
    sampleRound.takeA.noteFreqHz ∈ NOTE_FREQUENCIES_HZ ∧
    sampleRound.takeB.noteFreqHz = sampleRound.takeA.noteFreqHz :=
  note_pitch_from_fixed_set halfStream 0 halfStream_valid sampleRound sampleRound_mem

end Bullfrog
